import Mathlib

/-!
Shallow embedding of `src/sync_calendar.py` (grundfoskoret-calendar).

The pipeline extracts choir events from an HTML calendar page:
`parse_events` walks the selected `.calendar-event-title` nodes, applies
`parse_date` / `parse_time`, builds timezone-bound instants, and
`eventdata_to_calendar` assembles the iCalendar document, with
`get_uuid` generating stable per-day identifiers.

Modelling conventions:
* Python strings are Lean `String`; the Python `str` operations used by the
  source (`split`, `partition`, `replace`, `in`, `lower`, `int(...)`) are
  re-implemented below with the Python semantics (explicit-separator split
  keeps empty chunks, `partition` cuts at the first occurrence, `replace`
  replaces every occurrence).  `Char.toLower` lower-cases ASCII letters
  only; the source only ever compares against the ASCII keywords
  "aflyst" and the month names, so this agrees with Python there.
  Python `int(...)` additionally accepts digit-group underscores and
  non-ASCII decimal digits; those are left unmodelled.
* Python exceptions are `Except PyError`: `ValueError` from date code is
  `dateFormatError`, `KeyError` on the month table is `unknownMonth`,
  `ValueError` from time code is `timeFormatError`, `ValueError` from the
  `datetime` constructor is `invalidInstant`, and `IndexError` /
  `AttributeError` / `TypeError` from navigating an unexpected node shape
  is `structureError`.  The source `parse_events` contains no
  `try`/`except`, so every error propagates out of the loop.
* `datetime.datetime(...)` validates its fields (year 1..9999, month
  1..12, day within the month, hour 0..23, minute 0..59) and raises
  `ValueError` otherwise; the `pytz` method `localize` with its default
  `is_dst=False` never raises, so an instant is modelled as the validated
  wall-clock tuple.
* The BeautifulSoup parse plus the `.calendar-event-title` CSS selection
  is the excluded markup boundary: `parse_events` is modelled from the
  list of selected nodes onward.  `datetime.datetime.now()` is external
  input and becomes an explicit `now` parameter of the assembler.
-/

set_option maxRecDepth 100000

namespace SyncCal

/-! ### Python string primitives -/

/-- Locate the first occurrence of `sep` in `s`, returning the characters
before it and the characters after it. -/
def strFindSplit (sep : List Char) : List Char → Option (List Char × List Char)
  | [] => none
  | c :: rest =>
    if sep.isPrefixOf (c :: rest) then
      some ([], (c :: rest).drop sep.length)
    else
      match strFindSplit sep rest with
      | none => none
      | some (b, a) => some (c :: b, a)

/-- Fueled worker for `pySplit`; the fuel `s.length` always suffices
because each found separator consumes at least one character. -/
def pySplitAux (sep : List Char) : Nat → List Char → List (List Char)
  | 0, s => [s]
  | fuel + 1, s =>
    match strFindSplit sep s with
    | none => [s]
    | some (b, a) => b :: pySplitAux sep fuel a

/-- Python `s.split(sep)` for a non-empty separator: empty chunks are
kept, scanning is left-to-right and non-overlapping. -/
def pySplit (s sep : String) : List String :=
  (pySplitAux sep.data s.data.length s.data).map String.mk

/-- Python `s.partition(sep)[2]`: the text after the first occurrence of
`sep`, or `""` when `sep` does not occur. -/
def pyPartAfter (s sep : String) : String :=
  match strFindSplit sep.data s.data with
  | none => ""
  | some (_, a) => String.mk a

/-- Python `sub in s` for a non-empty `sub`. -/
def pyContains (s sub : String) : Bool :=
  (strFindSplit sub.data s.data).isSome

/-- Python `s.replace(pat, repl)` (every occurrence) for non-empty `pat`. -/
def strReplace (s pat repl : String) : String :=
  String.mk (List.intercalate repl.data (pySplitAux pat.data s.data.length s.data))

/-- Python `s.lower()` restricted to ASCII letters (see header note). -/
def pyLower (s : String) : String :=
  String.mk (s.data.map Char.toLower)

/-- Value of a non-empty all-digit character run, else `none`. -/
def digitsVal : List Char → Option Nat
  | [] => none
  | ds =>
    if ds.all Char.isDigit then
      some (ds.foldl (fun a c => a * 10 + (c.toNat - 48)) 0)
    else
      none

/-- Strip ASCII whitespace from both ends of a character list (Python
`int` also strips some further Unicode whitespace, unmodelled). -/
def stripWs (l : List Char) : List Char :=
  ((l.dropWhile Char.isWhitespace).reverse.dropWhile Char.isWhitespace).reverse

/-- Python `int(s)` on a decimal string: surrounding whitespace stripped,
an optional sign, then a non-empty digit run. -/
def pyInt (s : String) : Option Int :=
  match stripWs s.data with
  | [] => none
  | '+' :: ds => (digitsVal ds).map Int.ofNat
  | '-' :: ds => (digitsVal ds).map (fun n => -(Int.ofNat n : Int))
  | ds => (digitsVal ds).map Int.ofNat

/-! ### Error taxonomy (uncaught Python exceptions) -/

/-- The exceptions the pipeline can raise, named after the spec
taxonomy. -/
inductive PyError where
  | unknownMonth (name : String)
  | dateFormatError
  | timeFormatError
  | invalidInstant
  | structureError
  deriving DecidableEq, Repr

instance instDecEqExcept {ε α : Type} [DecidableEq ε] [DecidableEq α] :
    DecidableEq (Except ε α)
  | .error a, .error b =>
    if h : a = b then isTrue (congrArg Except.error h)
    else isFalse (fun hh => h (Except.error.inj hh))
  | .error _, .ok _ => isFalse (fun hh => Except.noConfusion hh)
  | .ok _, .error _ => isFalse (fun hh => Except.noConfusion hh)
  | .ok a, .ok b =>
    if h : a = b then isTrue (congrArg Except.ok h)
    else isFalse (fun hh => h (Except.ok.inj hh))

/-! ### Month lexicon and the date/time parsers -/

/-- Source `MONTH_MAP`: the fixed twelve-entry Danish month table. -/
def MONTH_MAP : List (String × Int) :=
  [("januar", 1), ("februar", 2), ("marts", 3), ("april", 4),
   ("maj", 5), ("juni", 6), ("juli", 7), ("august", 8),
   ("september", 9), ("oktober", 10), ("november", 11), ("december", 12)]

/-- Result of `parse_single_date`: the (day, month, year) integers.  The
source returns them as a prefixed dict; the prefixing is realised by the
two slots of `DateData`. -/
structure SingleDate where
  day : Int
  month : Int
  year : Int
  deriving DecidableEq, Repr

/-- Result of `parse_date`: the merged dict with `start_` and `end_`
prefixed keys. -/
structure DateData where
  start_day : Int
  start_month : Int
  start_year : Int
  end_day : Int
  end_month : Int
  end_year : Int
  deriving DecidableEq, Repr

/-- Result of `parse_time`. -/
structure TimeData where
  start_hour : Int
  start_minute : Int
  end_hour : Int
  end_minute : Int
  deriving DecidableEq, Repr

/-- Source `parse_single_date(date_text)`: take the text after the first
`"d. "` marker, split it on single spaces into exactly three tokens,
strip every `.` from the day token and convert, look the lower-cased
month name up in `MONTH_MAP`, convert the year.  Failures keep the
order of the source: unpacking and `int(day)` raise `ValueError`
(`dateFormatError`) before the `KeyError` (`unknownMonth`) of the month
lookup, which comes before `int(year)`. -/
def parse_single_date (date_text : String) : Except PyError SingleDate :=
  match pySplit (pyPartAfter date_text "d. ") " " with
  | [day_text, month_name, year_text] =>
    match pyInt (strReplace day_text "." "") with
    | none => .error .dateFormatError
    | some day =>
      match List.lookup (pyLower month_name) MONTH_MAP with
      | none => .error (.unknownMonth (pyLower month_name))
      | some month =>
        match pyInt year_text with
        | none => .error .dateFormatError
        | some year => .ok ⟨day, month, year⟩
  | _ => .error .dateFormatError

/-- Source `parse_double_date(date_text)`: split on `" - "` into exactly two
halves (`ValueError` otherwise), parse the first under the `start_`
prefix and the second under the `end_` prefix. -/
def parse_double_date (date_text : String) : Except PyError DateData :=
  match pySplit date_text " - " with
  | [start_text, end_text] =>
    match parse_single_date start_text with
    | .error e => .error e
    | .ok s =>
      match parse_single_date end_text with
      | .error e => .error e
      | .ok e =>
        .ok ⟨s.day, s.month, s.year, e.day, e.month, e.year⟩
  | _ => .error .dateFormatError

/-- Source `parse_date(date_text)`: the `" - "` range branch, else the same
text parsed once per role (the source calls `parse_single_date` twice). -/
def parse_date (date_text : String) : Except PyError DateData :=
  if pyContains date_text " - " then
    parse_double_date date_text
  else
    match parse_single_date date_text with
    | .error e => .error e
    | .ok s =>
      match parse_single_date date_text with
      | .error e => .error e
      | .ok e =>
        .ok ⟨s.day, s.month, s.year, e.day, e.month, e.year⟩

/-- Worker for the comprehension `[int(x) for x in parts]`: every piece
converted, or `none` at the first failing `int`. -/
def intList : List String → Option (List Int)
  | [] => some []
  | s :: rest =>
    match pyInt s with
    | none => none
    | some n =>
      match intList rest with
      | none => none
      | some ns => some (n :: ns)

/-- Source `parse_time(time_text)`: split on `" - "` into exactly two
halves, convert every `:`-separated piece of each half with `int`, and
require exactly two pieces per half; every failure is the same
`ValueError` (`timeFormatError`). -/
def parse_time (time_text : String) : Except PyError TimeData :=
  match pySplit time_text " - " with
  | [start_text, end_text] =>
    match intList (pySplit start_text ":") with
    | none => .error .timeFormatError
    | some starts =>
      match starts with
      | [start_hour, start_min] =>
        match intList (pySplit end_text ":") with
        | none => .error .timeFormatError
        | some ends =>
          match ends with
          | [end_hour, end_min] => .ok ⟨start_hour, start_min, end_hour, end_min⟩
          | _ => .error .timeFormatError
      | _ => .error .timeFormatError
  | _ => .error .timeFormatError

/-! ### Timezone-bound instants (`TIMEZONE.localize(datetime.datetime(...))`) -/

/-- A validated wall-clock instant in the single fixed civil timezone
(`Europe/Copenhagen`); pytz `localize` with its default `is_dst=False`
never raises, so only `datetime.datetime` validation matters. -/
structure Datetime where
  year : Nat
  month : Nat
  day : Nat
  hour : Nat
  minute : Nat
  deriving DecidableEq, Repr

/-- Gregorian leap-year rule, as used by `datetime`. -/
def isLeap (y : Int) : Bool :=
  (y % 4 == 0 && y % 100 != 0) || y % 400 == 0

/-- Number of days of month `m` of year `y` (for `m` in 1..12). -/
def daysInMonth (y m : Int) : Int :=
  if m == 2 then (if isLeap y then 29 else 28)
  else if m == 4 || m == 6 || m == 9 || m == 11 then 30
  else 31

/-- Python `datetime.datetime(year, month, day, hour, minute)` checked
construction: raises `ValueError` (`invalidInstant`) unless the fields
form a real calendar instant (year 1..9999). -/
def mkDatetime (y mo d h mi : Int) : Except PyError Datetime :=
  if 1 ≤ y && y ≤ 9999 && 1 ≤ mo && mo ≤ 12 && 1 ≤ d && d ≤ daysInMonth y mo
      && 0 ≤ h && h ≤ 23 && 0 ≤ mi && mi ≤ 59 then
    .ok ⟨y.toNat, mo.toNat, d.toNat, h.toNat, mi.toNat⟩
  else
    .error .invalidInstant

/-- Mixed-radix linearisation of an instant; strictly monotone in
chronological order for validated instants (month < 13, day < 32,
hour < 24, minute < 60), so it decides "strictly after". -/
def dtKey (dt : Datetime) : Nat :=
  (((dt.year * 13 + dt.month) * 32 + dt.day) * 24 + dt.hour) * 60 + dt.minute

/-! ### Markup fragments and the Event Extractor -/

/-- A node of the parsed markup: either textual content (a BeautifulSoup
`NavigableString`) or an element (`Tag`) with its child nodes. -/
inductive Node where
  | text (s : String)
  | elem (children : List Node)

/-- Access `node.contents` where the node is known to be a `Tag` (the selected
`.calendar-event-title` nodes always are; a text node has no children). -/
def Node.contents : Node → List Node
  | .text _ => []
  | .elem cs => cs

/-- Python truthiness of a child node: a `NavigableString` is falsy
exactly when empty; a `Tag` is truthy. -/
def Node.truthy : Node → Bool
  | .text s => s ≠ ""
  | .elem _ => true

/-- Access `node.contents[0]` for the date/time child: a text node (bs4
`AttributeError` on `.contents`) or an element without children
(`IndexError`) aborts the run; both are `structureError`. -/
def firstChild (n : Node) : Except PyError Node :=
  match n.contents with
  | [] => .error .structureError
  | c :: _ => .ok c

/-- Textual value of a node where the source uses it as a string
(`title.lower()`, the parser arguments); an element node there raises
(`AttributeError`), modelled as `structureError`. -/
def nodeStr : Node → Except PyError String
  | .text s => .ok s
  | .elem _ => .error .structureError

/-- One extracted occurrence, as appended by `parse_events`. -/
structure EventRecord where
  title : String
  start : Datetime
  «end» : Datetime
  cancelled : Bool
  deriving DecidableEq, Repr

/-- The body of the `parse_events` loop for one selected node:
`.ok none` is `continue` (fragment skipped), `.ok (some r)` appends a
record, `.error` is an uncaught exception aborting the run.  The
final source re-check `if title and date_text and time_text` is
omitted: all three were already required truthy above and are unchanged.
The textual value of the title is only demanded where the source first uses
string operations on it (`title.lower()`, after instant construction). -/
def processElem (e : Node) : Except PyError (Option EventRecord) :=
  match e.contents with
  | titleN :: dateN :: timeN :: _ =>
    if titleN.truthy then
      match firstChild dateN with
      | .error err => .error err
      | .ok dateC =>
        if dateC.truthy then
          match nodeStr dateC with
          | .error err => .error err
          | .ok date_text =>
            match parse_date date_text with
            | .error err => .error err
            | .ok date_data =>
              if date_data.start_year < 2023 then .ok none
              else
                match firstChild timeN with
                | .error err => .error err
                | .ok timeC =>
                  if timeC.truthy then
                    match nodeStr timeC with
                    | .error err => .error err
                    | .ok time_text =>
                      match parse_time time_text with
                      | .error err => .error err
                      | .ok time_data =>
                        match mkDatetime date_data.start_year date_data.start_month
                            date_data.start_day time_data.start_hour
                            time_data.start_minute with
                        | .error err => .error err
                        | .ok start_datetime =>
                          match mkDatetime date_data.end_year date_data.end_month
                              date_data.end_day time_data.end_hour
                              time_data.end_minute with
                          | .error err => .error err
                          | .ok end_datetime =>
                            match nodeStr titleN with
                            | .error err => .error err
                            | .ok title =>
                              .ok (some ⟨title, start_datetime, end_datetime,
                                pyContains (pyLower title) "aflyst"⟩)
                  else .ok none
        else .ok none
    else .ok none
  | _ => .ok none

/-- Source `parse_events`, from the list of selected `.calendar-event-title`
nodes onward (the BeautifulSoup parse and CSS selection are the excluded
markup boundary): records accumulate in encounter order and the first
uncaught exception aborts the whole run. -/
def parse_events : List Node → Except PyError (List EventRecord)
  | [] => .ok []
  | e :: rest =>
    match processElem e with
    | .error err => .error err
    | .ok none => parse_events rest
    | .ok (some r) =>
      match parse_events rest with
      | .error err => .error err
      | .ok rs => .ok (r :: rs)

/-- A well-formed fragment, as in end-to-end scenario A of the spec. -/
def fragA : Node :=
  .elem [.text "Forårskoncert",
         .elem [.text "Søndag d. 5. marts 2023"],
         .elem [.text "19:00 - 21:00"]]

/-! ### MD5 (`hashlib.md5`) over byte lists, 32-bit words as `Nat % 2^32` -/

/-- UTF-8 encoding of one character (Python `str.encode` to UTF-8). -/
def utf8Bytes (c : Char) : List Nat :=
  let n := c.toNat
  if n < 0x80 then [n]
  else if n < 0x800 then [0xC0 + n / 64, 0x80 + n % 64]
  else if n < 0x10000 then
    [0xE0 + n / 4096, 0x80 + (n / 64) % 64, 0x80 + n % 64]
  else
    [0xF0 + n / 262144, 0x80 + (n / 4096) % 64, 0x80 + (n / 64) % 64, 0x80 + n % 64]

/-- UTF-8 bytes of a string. -/
def strBytes (s : String) : List Nat :=
  s.data.foldr (fun c acc => utf8Bytes c ++ acc) []

/-- The 64 MD5 sine-derived round constants (RFC 1321). -/
def md5K : List Nat :=
  [0xd76aa478, 0xe8c7b756, 0x242070db, 0xc1bdceee,
   0xf57c0faf, 0x4787c62a, 0xa8304613, 0xfd469501,
   0x698098d8, 0x8b44f7af, 0xffff5bb1, 0x895cd7be,
   0x6b901122, 0xfd987193, 0xa679438e, 0x49b40821,
   0xf61e2562, 0xc040b340, 0x265e5a51, 0xe9b6c7aa,
   0xd62f105d, 0x02441453, 0xd8a1e681, 0xe7d3fbc8,
   0x21e1cde6, 0xc33707d6, 0xf4d50d87, 0x455a14ed,
   0xa9e3e905, 0xfcefa3f8, 0x676f02d9, 0x8d2a4c8a,
   0xfffa3942, 0x8771f681, 0x6d9d6122, 0xfde5380c,
   0xa4beea44, 0x4bdecfa9, 0xf6bb4b60, 0xbebfbc70,
   0x289b7ec6, 0xeaa127fa, 0xd4ef3085, 0x04881d05,
   0xd9d4d039, 0xe6db99e5, 0x1fa27cf8, 0xc4ac5665,
   0xf4292244, 0x432aff97, 0xab9423a7, 0xfc93a039,
   0x655b59c3, 0x8f0ccc92, 0xffeff47d, 0x85845dd1,
   0x6fa87e4f, 0xfe2ce6e0, 0xa3014314, 0x4e0811a1,
   0xf7537e82, 0xbd3af235, 0x2ad7d2bb, 0xeb86d391]

/-- The 64 MD5 per-round left-rotation amounts. -/
def md5S : List Nat :=
  [7, 12, 17, 22, 7, 12, 17, 22, 7, 12, 17, 22, 7, 12, 17, 22,
   5, 9, 14, 20, 5, 9, 14, 20, 5, 9, 14, 20, 5, 9, 14, 20,
   4, 11, 16, 23, 4, 11, 16, 23, 4, 11, 16, 23, 4, 11, 16, 23,
   6, 10, 15, 21, 6, 10, 15, 21, 6, 10, 15, 21, 6, 10, 15, 21]

/-- Bitwise complement within 32 bits. -/
def not32 (x : Nat) : Nat := 0xFFFFFFFF ^^^ x

/-- Left-rotation of a 32-bit word. -/
def rotl32 (s x : Nat) : Nat :=
  ((x <<< s) % 4294967296) ||| (x >>> (32 - s))

/-- MD5 nonlinear function of round `i`. -/
def md5F (i b c d : Nat) : Nat :=
  if i < 16 then (b &&& c) ||| (not32 b &&& d)
  else if i < 32 then (d &&& b) ||| (not32 d &&& c)
  else if i < 48 then b ^^^ c ^^^ d
  else c ^^^ (b ||| not32 d)

/-- Message-word index of round `i`. -/
def md5G (i : Nat) : Nat :=
  if i < 16 then i
  else if i < 32 then (5 * i + 1) % 16
  else if i < 48 then (3 * i + 5) % 16
  else (7 * i) % 16

/-- The `k` little-endian bytes of `n`. -/
def leBytes : Nat → Nat → List Nat
  | 0, _ => []
  | k + 1, n => (n % 256) :: leBytes k (n / 256)

/-- The sixteen little-endian 32-bit words of one 64-byte block. -/
def blockWords (block : List Nat) : List Nat :=
  (List.range 16).map fun j =>
    block.getD (4 * j) 0 + 256 * block.getD (4 * j + 1) 0
      + 65536 * block.getD (4 * j + 2) 0 + 16777216 * block.getD (4 * j + 3) 0

/-- One MD5 compression step over the 64 rounds plus the feed-forward. -/
def md5Block (words : List Nat) (st : Nat × Nat × Nat × Nat) : Nat × Nat × Nat × Nat :=
  let r := (List.range 64).foldl
    (fun abcd i =>
      let a := abcd.1; let b := abcd.2.1; let c := abcd.2.2.1; let d := abcd.2.2.2
      let tmp := (a + md5F i b c d + md5K.getD i 0 + words.getD (md5G i) 0) % 4294967296
      let nb := (b + rotl32 (md5S.getD i 0) tmp) % 4294967296
      (d, nb, b, c))
    st
  ((st.1 + r.1) % 4294967296, (st.2.1 + r.2.1) % 4294967296,
   (st.2.2.1 + r.2.2.1) % 4294967296, (st.2.2.2 + r.2.2.2) % 4294967296)

/-- MD5 padding: `0x80`, zeros to 56 mod 64, then the 8-byte
little-endian bit length. -/
def md5Pad (msg : List Nat) : List Nat :=
  let z := (64 + 56 - (msg.length + 1) % 64) % 64
  msg ++ [0x80] ++ List.replicate z 0 ++ leBytes 8 ((8 * msg.length) % 18446744073709551616)

/-- Split a padded message into 64-byte blocks (fueled by the block
count, which always suffices). -/
def chunks64 : Nat → List Nat → List (List Nat)
  | 0, _ => []
  | _ + 1, [] => []
  | fuel + 1, l => l.take 64 :: chunks64 fuel (l.drop 64)

/-- The 16-byte MD5 digest of a byte list. -/
def md5Bytes (msg : List Nat) : List Nat :=
  let padded := md5Pad msg
  let st := (chunks64 padded.length padded).foldl
    (fun st block => md5Block (blockWords block) st)
    (0x67452301, 0xefcdab89, 0x98badcfe, 0x10325476)
  leBytes 4 st.1 ++ leBytes 4 st.2.1 ++ leBytes 4 st.2.2.1 ++ leBytes 4 st.2.2.2

/-- Lower-case hex digit. -/
def hexChar (n : Nat) : Char :=
  if n < 10 then Char.ofNat (48 + n) else Char.ofNat (87 + n)

/-- Python `hashlib.md5` of the UTF-8 bytes, as a lower-case hex digest. -/
def md5Hex (s : String) : String :=
  String.mk ((md5Bytes (strBytes s)).foldr
    (fun b acc => hexChar (b / 16) :: hexChar (b % 16) :: acc) [])

/-! ### Identity Generator (`get_uuid`) -/

/-- Decimal representation of `n`, left-padded with zeros to width `w`. -/
def padNum (w n : Nat) : String :=
  let s := toString n
  String.mk (List.replicate (w - s.length) '0' ++ s.data)

/-- Python `dt.date().isoformat()`: the `YYYY-MM-DD` calendar-date portion. -/
def isoDate (dt : Datetime) : String :=
  padNum 4 dt.year ++ "-" ++ padNum 2 dt.month ++ "-" ++ padNum 2 dt.day

/-- The run-scoped `counter_map` dict (`Dict[str, int]`), as the partial
map it denotes. -/
def CounterMap : Type := String → Option Int

/-- The empty dict `{}`. -/
def emptyCounters : CounterMap := fun _ => none

/-- Value of `uuid.UUID(hexvalue)`: the 128-bit integer the 32 hex
digits denote. -/
def uuidVal (h : String) : Nat :=
  h.data.foldl
    (fun a c => 16 * a + (if 97 ≤ c.toNat then c.toNat - 87 else c.toNat - 48)) 0

/-- Source `get_uuid(dt, counter_map)`: read the per-date counter (default 0),
increment, store it back, and fingerprint `"<iso-date>:<counter>"` with
MD5.  The dict mutation is modelled by returning the updated map. -/
def get_uuid (dt : Datetime) (counter_map : CounterMap) : Nat × CounterMap :=
  let date_part := isoDate dt
  let counter := (counter_map date_part).getD 0 + 1
  let updated : CounterMap := fun k => if k = date_part then some counter else counter_map k
  let unique_value := date_part ++ ":" ++ toString counter
  let hexvalue := md5Hex unique_value
  (uuidVal hexvalue, updated)

/-! ### Calendar Assembler (`get_vtimezone`, `eventdata_to_calendar`) -/

/-- One `TimezoneDaylight`/`TimezoneStandard` sub-rule of the embedded
vtimezone (offsets in hours, recurrence as `FREQ=YEARLY` month/day). -/
structure TZRule where
  tzname : String
  offsetfromHours : Int
  offsettoHours : Int
  rruleFreq : String
  rruleByMonth : Int
  rruleByday : String
  deriving DecidableEq, Repr

/-- The embedded `VTIMEZONE` component. -/
structure VTimezone where
  tzid : String
  daylight : TZRule
  standard : TZRule
  deriving DecidableEq, Repr

/-- Source `get_vtimezone()`: the fixed Europe/Copenhagen definition with its
two static recurring-yearly rules. -/
def get_vtimezone : VTimezone :=
  { tzid := "Europe/Copenhagen"
    daylight := ⟨"CEST", 1, 2, "YEARLY", 3, "-1SU"⟩
    standard := ⟨"CET", 2, 1, "YEARLY", 10, "-1SU"⟩ }

/-- One assembled `VEVENT`.  `method`/`status` hold the added
`CANCEL`/`CANCELLED` properties, `none` when the source adds neither. -/
structure VEvent where
  uid : Nat
  dtstamp : Datetime
  name : String
  description : String
  dtstart : Datetime
  dtend : Datetime
  method : Option String
  status : Option String
  deriving DecidableEq, Repr

/-- The event loop of `eventdata_to_calendar`, threading the
`event_counters` dict through `get_uuid` in input order. -/
def assembleEvents (now : Datetime) (counters : CounterMap) :
    List EventRecord → List VEvent
  | [] => []
  | ev :: rest =>
    let r := get_uuid ev.start counters
    { uid := r.1
      dtstamp := now
      name := ev.title
      description := ev.title
      dtstart := ev.start
      dtend := ev.«end»
      method := if ev.cancelled then some "CANCEL" else none
      status := if ev.cancelled then some "CANCELLED" else none }
      :: assembleEvents now r.2 rest

/-- The assembled `icalendar.Calendar` document. -/
structure Calendar where
  prodid : String
  version : String
  vtimezone : VTimezone
  events : List VEvent
  deriving DecidableEq, Repr

/-- Source `eventdata_to_calendar(eventdata_list)`: fixed metadata, the
embedded vtimezone, then one entry per record starting from a fresh
`event_counters = \x7b\x7d`.  The assembly instant
`datetime.datetime.now()` is external input, passed as `now`. -/
def eventdata_to_calendar (now : Datetime) (eventdata_list : List EventRecord) :
    Calendar :=
  { prodid := "-//grundfoskoret-calendar//grundfoskoret.dk//"
    version := "2.0"
    vtimezone := get_vtimezone
    events := assembleEvents now emptyCounters eventdata_list }

/-! ### Definitions supporting the claim statements -/

/-- Modelled from the words of the spec (testable property for the range
claim): combine the results of independently parsing the two halves,
the first under the start role, the second under the end role; a
failure of the first half takes precedence, as the start half is parsed
first. -/
def combineDates :
    Except PyError SingleDate → Except PyError SingleDate → Except PyError DateData
  | .error e, _ => .error e
  | .ok _, .error e => .error e
  | .ok s, .ok e => .ok ⟨s.day, s.month, s.year, e.day, e.month, e.year⟩

/-- The record extracted from `fragA`. -/
def recA : EventRecord :=
  ⟨"Forårskoncert", ⟨2023, 3, 5, 19, 0⟩, ⟨2023, 3, 5, 21, 0⟩, false⟩

/-- A fragment whose date text lacks the `"d. "` marker, so its date
parse raises. -/
def fragBadDate : Node :=
  .elem [.text "Generalforsamling",
         .elem [.text "Onsdag den 5. marts 2023"],
         .elem [.text "19:00 - 21:00"]]

/-- A cancelled-title fragment, as in end-to-end scenario B of the spec. -/
def fragB : Node :=
  .elem [.text "Øveaften AFLYST",
         .elem [.text "d. 10. januar 2024"],
         .elem [.text "19:30 - 21:30"]]

/-- The record extracted from `fragB`. -/
def recB : EventRecord :=
  ⟨"Øveaften AFLYST", ⟨2024, 1, 10, 19, 30⟩, ⟨2024, 1, 10, 21, 30⟩, true⟩

/-- A below-cutoff fragment, as in end-to-end scenario C of the spec. -/
def fragC : Node :=
  .elem [.text "Koncert",
         .elem [.text "d. 1. april 2022"],
         .elem [.text "19:00 - 21:00"]]

/-- A well-formed fragment whose time span ends before it starts. -/
def fragRev : Node :=
  .elem [.text "Øveaften",
         .elem [.text "Mandag d. 6. marts 2023"],
         .elem [.text "21:00 - 19:00"]]

/-- The record extracted from `fragRev`: start strictly after end. -/
def revRec : EventRecord :=
  ⟨"Øveaften", ⟨2023, 3, 6, 21, 0⟩, ⟨2023, 3, 6, 19, 0⟩, false⟩

/-- A fixed assembly instant standing in for `datetime.datetime.now()`. -/
def now0 : Datetime := ⟨2024, 1, 1, 12, 0⟩

/-- A counter map that differs from the empty one away from
`2023-03-05`, for exercising the frame property. -/
def wMap : CounterMap := fun k => if k = "2030-01-01" then some 7 else none

/-! ### Sanity examples (kernel-evaluated against the embedding) -/

example : parse_single_date "Søndag d. 5. marts 2023" = .ok ⟨5, 3, 2023⟩ := by decide
example : parse_date "Søndag d. 5. marts 2023" =
    .ok ⟨5, 3, 2023, 5, 3, 2023⟩ := by decide
example : parse_date "d. 1. april 2022 - d. 3. april 2022" =
    .ok ⟨1, 4, 2022, 3, 4, 2022⟩ := by decide
example : parse_date "Onsdag den 5. marts 2023" = .error .dateFormatError := by decide
example : parse_single_date "d. 5. smarch 2023" =
    .error (.unknownMonth "smarch") := by decide
example : parse_time "19:00 - 21:00" = .ok ⟨19, 0, 21, 0⟩ := by decide
example : parse_time "25:99 - 7:61" = .ok ⟨25, 99, 7, 61⟩ := by decide
example : parse_time "19.00 - 21.00" = .error .timeFormatError := by decide
example : parse_events [fragA] = .ok [recA] := by decide
example : parse_events [fragB] = .ok [recB] := by decide
example : parse_events [fragC] = .ok [] := by decide
example : md5Hex "" = "d41d8cd98f00b204e9800998ecf8427e" := by decide
example : md5Hex "abc" = "900150983cd24fb0d6963f7d28e17f72" := by decide

/-! ### Helper lemmas shared by the claim proofs -/

/-- A two-chunk split means the separator occurs in the text. -/
theorem pySplit_two_contains (s sep A B : String) (h : pySplit s sep = [A, B]) :
    pyContains s sep = true := by
  unfold pySplit at h
  cases hf : strFindSplit sep.data s.data with
  | none =>
    have hone : pySplitAux sep.data s.data.length s.data = [s.data] := by
      cases s.data.length <;> simp [pySplitAux, hf]
    rw [hone] at h
    simp at h
  | some p => simp [pyContains, hf]

/-! ### Claim C4 -/

/-- C4: for every valid single-date text of the form
`"... d. D. MonthName YYYY"` (no `" - "` range separator), the Date
Parser returns start day/month/year equal to end day/month/year, namely
the day token converted after stripping its periods, the numeric month
of the month name per the twelve-entry lexicon, and the year token
converted. -/
theorem claim4_single_date (text day_text month_name year_text : String)
    (D M Y : Int)
    (hnr : pyContains text " - " = false)
    (htoks : pySplit (pyPartAfter text "d. ") " " = [day_text, month_name, year_text])
    (hday : pyInt (strReplace day_text "." "") = some D)
    (hmon : List.lookup (pyLower month_name) MONTH_MAP = some M)
    (hyear : pyInt year_text = some Y) :
    parse_date text = .ok ⟨D, M, Y, D, M, Y⟩ := by
  have hs : parse_single_date text = .ok ⟨D, M, Y⟩ := by
    unfold parse_single_date
    rw [htoks]
    simp only [hday, hmon, hyear]
  unfold parse_date
  simp [hnr, hs]

/-- Witness for C4 at scenario A's date text. -/
theorem claim4_single_date_witness :
    parse_date "Søndag d. 5. marts 2023" = .ok ⟨5, 3, 2023, 5, 3, 2023⟩ :=
  claim4_single_date "Søndag d. 5. marts 2023" "5." "marts" "2023" 5 3 2023
    (by decide) (by decide) (by decide) (by decide) (by decide)

/-! ### Claim C5 -/

/-- C5: for every valid range text `"A - B"` (splitting on the `" - "`
separator into exactly the two halves A and B), the Date Parser result
equals the combination of independently parsing A as a single date under
the start role and B as a single date under the end role. -/
theorem claim5_range_date (text A B : String)
    (h : pySplit text " - " = [A, B]) :
    parse_date text = combineDates (parse_single_date A) (parse_single_date B) := by
  have hc := pySplit_two_contains text " - " A B h
  unfold parse_date
  simp only [hc, if_true]
  unfold parse_double_date
  rw [h]
  cases hA : parse_single_date A <;> cases hB : parse_single_date B <;>
    simp [combineDates, hA, hB]

/-- Witness for C5 at a concrete two-day range. -/
theorem claim5_range_date_witness :
    parse_date "Lørdag d. 1. april 2023 - Søndag d. 2. april 2023" =
      combineDates (parse_single_date "Lørdag d. 1. april 2023")
        (parse_single_date "Søndag d. 2. april 2023") :=
  claim5_range_date "Lørdag d. 1. april 2023 - Søndag d. 2. april 2023"
    "Lørdag d. 1. april 2023" "Søndag d. 2. april 2023" (by decide)

/-! ### Claim C7 -/

/-- C7: for every valid time text of the exact form `"H:MM - H:MM"`,
the Time Parser returns the four integers exactly as written in the
textual digits; no hypothesis bounds the hours to 0..23 or the minutes
to 0..59, so out-of-range numeric values are returned unchanged. -/
theorem claim7_time_unchanged (text start_text end_text sh sm eh em : String)
    (H1 M1 H2 M2 : Int)
    (hsp : pySplit text " - " = [start_text, end_text])
    (hc1 : pySplit start_text ":" = [sh, sm])
    (hc2 : pySplit end_text ":" = [eh, em])
    (hH1 : pyInt sh = some H1) (hM1 : pyInt sm = some M1)
    (hH2 : pyInt eh = some H2) (hM2 : pyInt em = some M2) :
    parse_time text = .ok ⟨H1, M1, H2, M2⟩ := by
  unfold parse_time
  rw [hsp]
  simp only [hc1, hc2]
  simp [intList, hH1, hM1, hH2, hM2]

/-- Witness for C7 at an out-of-range time span, returned unchanged. -/
theorem claim7_time_unchanged_witness :
    parse_time "25:99 - 7:61" = .ok ⟨25, 99, 7, 61⟩ :=
  claim7_time_unchanged "25:99 - 7:61" "25:99" "7:61" "25" "99" "7" "61" 25 99 7 61
    (by decide) (by decide) (by decide) (by decide) (by decide) (by decide)
    (by decide)

/-! ### Claim C9 -/

/-- C9: every selected event-title node with fewer than three child
content nodes is skipped without raising any error, and the run
continues with the subsequent fragments. -/
theorem claim9_short_fragment_skip (e : Node) (rest : List Node)
    (h : e.contents.length < 3) :
    processElem e = .ok none ∧ parse_events (e :: rest) = parse_events rest := by
  have hp : processElem e = .ok none := by
    cases hc : e.contents with
    | nil => simp [processElem, hc]
    | cons a t1 =>
      cases t1 with
      | nil => simp [processElem, hc]
      | cons b t2 =>
        cases t2 with
        | nil => simp [processElem, hc]
        | cons c t3 =>
          exfalso
          rw [hc] at h
          simp [List.length_cons] at h
          omega
  exact ⟨hp, by simp [parse_events, hp]⟩

/-- Witness for C9: a two-child fragment is skipped and the run goes on
to extract `fragA`. -/
theorem claim9_short_fragment_skip_witness :
    processElem (.elem [.text "Koncert", .elem [.text "d. 1. april 2023"]]) = .ok none
    ∧ parse_events [.elem [.text "Koncert", .elem [.text "d. 1. april 2023"]], fragA]
        = parse_events [fragA] :=
  claim9_short_fragment_skip
    (.elem [.text "Koncert", .elem [.text "d. 1. april 2023"]]) [fragA] (by decide)

/-! ### The fully successful fragment shape (shared helper) -/

/-- Characterisation of a fragment that passes every check of the
`parse_events` loop body: the emitted record carries the parsed
instants and title verbatim. -/
theorem processElem_success (titleN : Node) (ds ts title : String)
    (dmore tmore rest' : List Node) (dd : DateData) (td : TimeData)
    (sdt edt : Datetime)
    (ht : titleN.truthy = true) (hds : ds ≠ "") (hts : ts ≠ "")
    (hdd : parse_date ds = .ok dd) (h2023 : ¬ dd.start_year < 2023)
    (htd : parse_time ts = .ok td)
    (hsdt : mkDatetime dd.start_year dd.start_month dd.start_day
      td.start_hour td.start_minute = .ok sdt)
    (hedt : mkDatetime dd.end_year dd.end_month dd.end_day
      td.end_hour td.end_minute = .ok edt)
    (htitle : nodeStr titleN = .ok title) :
    processElem (.elem (titleN :: .elem (.text ds :: dmore)
        :: .elem (.text ts :: tmore) :: rest'))
      = .ok (some ⟨title, sdt, edt, pyContains (pyLower title) "aflyst"⟩) := by
  unfold processElem
  simp only [Node.contents]
  rw [ht, htitle]
  simp [firstChild, Node.contents, Node.truthy, nodeStr, hds, hts, hdd,
    h2023, htd, hsdt, hedt]

/-! ### Claim C2 -/

/-- C2: a fragment whose parsed date has start year strictly below 2023
yields no record — it is skipped with no regard to its time child or
other fields, and the run continues — while a fragment with start year
at least 2023 is not discarded by the filter: with the remaining fields
valid it is emitted. -/
theorem claim2_staleness_filter (titleN timeN : Node) (dmore rest' : List Node)
    (ds : String) (dd : DateData)
    (ht : titleN.truthy = true) (hds : ds ≠ "")
    (hdd : parse_date ds = .ok dd) :
    (dd.start_year < 2023 →
      processElem (.elem (titleN :: .elem (.text ds :: dmore) :: timeN :: rest'))
        = .ok none
      ∧ ∀ rest, parse_events
          (.elem (titleN :: .elem (.text ds :: dmore) :: timeN :: rest') :: rest)
          = parse_events rest)
    ∧ (2023 ≤ dd.start_year →
      ∀ (ts title : String) (tmore : List Node) (td : TimeData) (sdt edt : Datetime),
        timeN = .elem (.text ts :: tmore) → ts ≠ "" →
        parse_time ts = .ok td →
        mkDatetime dd.start_year dd.start_month dd.start_day
          td.start_hour td.start_minute = .ok sdt →
        mkDatetime dd.end_year dd.end_month dd.end_day
          td.end_hour td.end_minute = .ok edt →
        nodeStr titleN = .ok title →
        processElem (.elem (titleN :: .elem (.text ds :: dmore) :: timeN :: rest'))
          = .ok (some ⟨title, sdt, edt, pyContains (pyLower title) "aflyst"⟩)) := by
  constructor
  · intro hlt
    have hp : processElem (.elem (titleN :: .elem (.text ds :: dmore) :: timeN :: rest'))
        = .ok none := by
      unfold processElem
      simp [Node.contents, ht, firstChild, Node.truthy, hds, nodeStr, hdd, hlt]
    exact ⟨hp, fun rest => by simp [parse_events, hp]⟩
  · intro hge ts title tmore td sdt edt hteq hts htd hsdt hedt htitle
    subst hteq
    exact processElem_success titleN ds ts title dmore tmore rest' dd td sdt edt
      ht hds hts hdd (by omega) htd hsdt hedt htitle

/-- Witness for C2: scenario C (year 2022) is dropped and the run
continues; scenario A (year 2023) is emitted. -/
theorem claim2_staleness_filter_witness :
    (processElem fragC = .ok none ∧ parse_events [fragC] = parse_events [])
    ∧ processElem fragA = .ok (some recA) := by
  constructor
  · have h := (claim2_staleness_filter (.text "Koncert") (.elem [.text "19:00 - 21:00"])
      [] [] "d. 1. april 2022" ⟨1, 4, 2022, 1, 4, 2022⟩
      (by decide) (by decide) (by decide)).1 (by decide)
    exact ⟨h.1, h.2 []⟩
  · exact (claim2_staleness_filter (.text "Forårskoncert") (.elem [.text "19:00 - 21:00"])
      [] [] "Søndag d. 5. marts 2023" ⟨5, 3, 2023, 5, 3, 2023⟩
      (by decide) (by decide) (by decide)).2 (by decide)
      "19:00 - 21:00" "Forårskoncert" [] ⟨19, 0, 21, 0⟩
      ⟨2023, 3, 5, 19, 0⟩ ⟨2023, 3, 5, 21, 0⟩
      rfl (by decide) (by decide) (by decide) (by decide) rfl

/-! ### Claim C8 -/

/-- C8: the Event Extractor emits the parsed start and end instants of a
record exactly as parsed, with no reordering or correction, so start not
later than end is never enforced; concretely, the well-formed fragment
`fragRev` yields a record whose start is strictly after its end. -/
theorem claim8_no_correction :
    (∀ (titleN : Node) (ds ts title : String) (dmore tmore rest' : List Node)
        (dd : DateData) (td : TimeData) (sdt edt : Datetime),
      titleN.truthy = true → ds ≠ "" → ts ≠ "" →
      parse_date ds = .ok dd → ¬ dd.start_year < 2023 →
      parse_time ts = .ok td →
      mkDatetime dd.start_year dd.start_month dd.start_day
        td.start_hour td.start_minute = .ok sdt →
      mkDatetime dd.end_year dd.end_month dd.end_day
        td.end_hour td.end_minute = .ok edt →
      nodeStr titleN = .ok title →
      processElem (.elem (titleN :: .elem (.text ds :: dmore)
          :: .elem (.text ts :: tmore) :: rest'))
        = .ok (some ⟨title, sdt, edt, pyContains (pyLower title) "aflyst"⟩))
    ∧ (parse_events [fragRev] = .ok [revRec]
       ∧ dtKey revRec.«end» < dtKey revRec.start) := by
  refine ⟨?_, by decide, by decide⟩
  intro titleN ds ts title dmore tmore rest' dd td sdt edt
    ht hds hts hdd h2023 htd hsdt hedt htitle
  exact processElem_success titleN ds ts title dmore tmore rest' dd td sdt edt
    ht hds hts hdd h2023 htd hsdt hedt htitle

/-- Witness for C8 applying the no-correction arm to `fragRev`. -/
theorem claim8_no_correction_witness :
    processElem fragRev = .ok (some revRec) :=
  claim8_no_correction.1 (.text "Øveaften") "Mandag d. 6. marts 2023" "21:00 - 19:00"
    "Øveaften" [] [] [] ⟨6, 3, 2023, 6, 3, 2023⟩ ⟨21, 0, 19, 0⟩
    ⟨2023, 3, 6, 21, 0⟩ ⟨2023, 3, 6, 19, 0⟩
    (by decide) (by decide) (by decide) (by decide) (by decide) (by decide)
    (by decide) (by decide) (by decide)

/-! ### Claim C1 -/

/-- C1 counterexample: a fragment with malformed date text (missing
`"d. "` marker) is not caught and skipped — the whole extraction run
aborts with the uncaught `dateFormatError`, and the following well-formed
fragment `fragA` (which alone extracts fine) produces no output. -/
theorem claim1_counterexample :
    parse_events [fragBadDate, fragA] = .error .dateFormatError
    ∧ parse_events [fragA] = .ok [recA] :=
  ⟨by decide, by decide⟩

/-- C1 amended: `parse_events` contains no handler, so once the loop
reaches a fragment whose processing raises (all earlier fragments
having been processed without raising), the error propagates out of the
extraction step and the run produces no output at all. -/
theorem claim1_error_propagation (pre : List Node) (e : Node) (post : List Node)
    (err : PyError)
    (hpre : ∀ x ∈ pre, ∃ v, processElem x = .ok v)
    (he : processElem e = .error err) :
    parse_events (pre ++ e :: post) = .error err := by
  induction pre with
  | nil => simp [parse_events, he]
  | cons x xs ih =>
    obtain ⟨v, hv⟩ := hpre x (List.mem_cons_self x xs)
    have ih2 := ih (fun y hy => hpre y (List.mem_cons_of_mem x hy))
    cases v with
    | none => simp [parse_events, hv, ih2]
    | some r => simp [parse_events, hv, ih2]

/-- Witness for the amended C1: a malformed fragment after a good one
still aborts the whole run. -/
theorem claim1_error_propagation_witness :
    parse_events [fragA, fragBadDate] = .error .dateFormatError :=
  claim1_error_propagation [fragA] fragBadDate [] .dateFormatError
    (fun x hx => by
      simp only [List.mem_singleton] at hx
      subst hx
      exact ⟨some recA, by decide⟩)
    (by decide)

/-! ### Claim C3 -/

/-- Every record emitted by the loop body has its cancellation flag
computed from its own title. -/
theorem processElem_cancelled_eq (e : Node) (r : EventRecord)
    (h : processElem e = .ok (some r)) :
    r.cancelled = pyContains (pyLower r.title) "aflyst" := by
  unfold processElem at h
  repeat' split at h
  all_goals (cases h; try rfl)

/-- C3: the cancelled flag of every extracted record is true exactly
when the lower-cased title contains `"aflyst"`; and the assembler emits
one entry per record, never omitting any, carrying method `CANCEL` and
status `CANCELLED` exactly on the cancelled ones. -/
theorem claim3_cancellation :
    (∀ (elems : List Node) (out : List EventRecord), parse_events elems = .ok out →
      ∀ r ∈ out, r.cancelled = pyContains (pyLower r.title) "aflyst")
    ∧ (∀ (now : Datetime) (cm : CounterMap) (evs : List EventRecord),
      List.Forall₂ (fun ev ve =>
          ve.name = ev.title ∧ ve.dtstart = ev.start ∧ ve.dtend = ev.«end»
          ∧ (ev.cancelled = true →
              ve.method = some "CANCEL" ∧ ve.status = some "CANCELLED")
          ∧ (ev.cancelled = false → ve.method = none ∧ ve.status = none))
        evs (assembleEvents now cm evs)) := by
  constructor
  · intro elems
    induction elems with
    | nil =>
      intro out h r hr
      simp only [parse_events] at h
      cases h
      simp at hr
    | cons e rest ih =>
      intro out h r hr
      simp only [parse_events] at h
      cases hp : processElem e with
      | error err => rw [hp] at h; cases h
      | ok o =>
        rw [hp] at h
        cases o with
        | none => exact ih out h r hr
        | some r0 =>
          cases hr2 : parse_events rest with
          | error err => rw [hr2] at h; cases h
          | ok rs =>
            rw [hr2] at h
            cases h
            rcases List.mem_cons.mp hr with rfl | hmem
            · exact processElem_cancelled_eq e r hp
            · exact ih rs hr2 r hmem
  · intro now cm evs
    induction evs generalizing cm with
    | nil => exact List.Forall₂.nil
    | cons ev rest ih =>
      simp only [assembleEvents]
      exact List.Forall₂.cons
        ⟨rfl, rfl, rfl, fun hc => by simp [hc], fun hc => by simp [hc]⟩
        (ih _)

/-- Witness for C3 at scenario B: the extracted record of `fragB` is
flagged cancelled, and its assembled entry is marked. -/
theorem claim3_cancellation_witness :
    recB.cancelled = pyContains (pyLower recB.title) "aflyst"
    ∧ List.Forall₂ (fun ev ve =>
        ve.name = ev.title ∧ ve.dtstart = ev.start ∧ ve.dtend = ev.«end»
        ∧ (ev.cancelled = true →
            ve.method = some "CANCEL" ∧ ve.status = some "CANCELLED")
        ∧ (ev.cancelled = false → ve.method = none ∧ ve.status = none))
      [recB] (assembleEvents now0 emptyCounters [recB]) :=
  ⟨claim3_cancellation.1 [fragB] [recB] (by decide) recB (List.mem_singleton.mpr rfl),
   claim3_cancellation.2 now0 emptyCounters [recB]⟩

/-! ### Claim C10 -/

/-- C10: one `get_uuid` call updates exactly the counter-map entry of
the ISO date of the given start instant, to its previous value (default
0) plus one — so a missing entry is created at 1 — leaves every other
key unchanged, and returns an identifier depending only on that ISO date
and on the pre-call value of that entry. -/
theorem claim10_counter_frame (dt : Datetime) (m : CounterMap) :
    ((get_uuid dt m).2 (isoDate dt) = some ((m (isoDate dt)).getD 0 + 1))
    ∧ (∀ k, k ≠ isoDate dt → (get_uuid dt m).2 k = m k)
    ∧ (∀ (dt2 : Datetime) (m2 : CounterMap),
        isoDate dt2 = isoDate dt → m2 (isoDate dt2) = m (isoDate dt) →
        (get_uuid dt2 m2).1 = (get_uuid dt m).1) := by
  refine ⟨by simp [get_uuid], fun k hk => by simp [get_uuid, hk], ?_⟩
  intro dt2 m2 h1 h2
  simp only [get_uuid]
  rw [h2, h1]

/-- Witness for C10: on the empty dict the entry is created at 1, an
unrelated key keeps its value, and a map differing only away from the
date yields the same identifier. -/
theorem claim10_counter_frame_witness :
    ((get_uuid ⟨2023, 3, 5, 19, 0⟩ emptyCounters).2 (isoDate ⟨2023, 3, 5, 19, 0⟩)
      = some 1)
    ∧ ((get_uuid ⟨2023, 3, 5, 19, 0⟩ emptyCounters).2 "2030-01-01"
      = emptyCounters "2030-01-01")
    ∧ (get_uuid ⟨2023, 3, 5, 19, 0⟩ wMap).1
      = (get_uuid ⟨2023, 3, 5, 19, 0⟩ emptyCounters).1 :=
  ⟨(claim10_counter_frame ⟨2023, 3, 5, 19, 0⟩ emptyCounters).1,
   (claim10_counter_frame ⟨2023, 3, 5, 19, 0⟩ emptyCounters).2.1 "2030-01-01"
     (by decide),
   (claim10_counter_frame ⟨2023, 3, 5, 19, 0⟩ emptyCounters).2.2
     ⟨2023, 3, 5, 19, 0⟩ wMap rfl (by decide)⟩

end SyncCal
